/-
  Verification of the telemetry wire protocol of the ESP32 LoRa environment
  monitor (sensor node + gateway firmware).

  Shallow embedding of the C++ sources:
    * bytes are `Nat` values < 256, frames are `List Nat`;
    * machine integers are `Nat` / `Int` with explicit `% 2^w` where overflow
      matters;
    * IEEE-754 binary32 (`float`) arithmetic is embedded as exact rationals
      together with an explicit round-to-nearest-even rounding function
      `rnd32` (the ESP32-S3 FPU implements IEEE single precision);
    * the C statics (dedup table, batch buffer, stats counters) become
      explicit state records threaded through the functions.
-/
import Mathlib

namespace EnvMonitor

/-! ### Byte-level helpers (packed little-endian serialization)

The structs in `message_struct.h` carry `__attribute__((packed))`, so the
wire image is the fields laid out byte by byte with no padding; the ESP32 is
little-endian. -/

/-- Split a 16-bit unsigned value into its two little-endian bytes. -/
def u16le (v : ℕ) : List ℕ := [v % 256, v / 256 % 256]

/-- Split a 32-bit unsigned value into its four little-endian bytes. -/
def u32le (v : ℕ) : List ℕ :=
  [v % 256, v / 256 % 256, v / 65536 % 256, v / 16777216 % 256]

/-- Two's-complement 16-bit image of a signed value, as little-endian bytes
(`int16_t` stored in a packed struct). -/
def i16le (v : ℤ) : List ℕ := u16le (v % 65536).toNat

/-- Truncation toward zero, the semantics of a C cast from `float` to an
integer type (the value is assumed in range, otherwise the C cast is UB). -/
def ratTrunc (q : ℚ) : ℤ := if q < 0 then -⌊-q⌋ else ⌊q⌋

/-! ### Message structs (`message_struct.h`) -/

/-- Wire discriminant `MSG_TYPE_SENSOR_DATA`. -/
def MSG_TYPE_SENSOR_DATA : ℕ := 0x01
/-- Wire discriminant `MSG_TYPE_HEARTBEAT`. -/
def MSG_TYPE_HEARTBEAT : ℕ := 0x02
/-- Wire discriminant `MSG_TYPE_ALERT`. -/
def MSG_TYPE_ALERT : ℕ := 0x03

/-- The `struct SensorDataMessage` of `message_struct.h` (packed). Unsigned
fields are `Nat` values below their width, `temperature` is the signed
`int16_t` field. -/
structure SensorDataMessage where
  msg_type : ℕ
  client_id : ℕ
  timestamp : ℕ
  temperature : ℤ
  humidity : ℕ
  distance_cm : ℕ
  battery : ℕ
  luminosity_lux : ℕ
  reserved : ℕ
  checksum : ℕ
  deriving DecidableEq, Repr

/-- The `struct HeartbeatMessage` of `message_struct.h` (packed). -/
structure HeartbeatMessage where
  msg_type : ℕ
  client_id : ℕ
  timestamp : ℕ
  status : ℕ
  checksum : ℕ
  deriving DecidableEq, Repr

/-- The `struct AlertMessage` of `message_struct.h` (packed). -/
structure AlertMessage where
  msg_type : ℕ
  client_id : ℕ
  timestamp : ℕ
  alert_code : ℕ
  alert_value : ℤ
  severity : ℕ
  reserved : ℕ
  checksum : ℕ
  deriving DecidableEq, Repr

/-- Packed byte image of a `SensorDataMessage`: the fields in declaration
order, multi-byte fields little-endian, no padding. -/
def sensorDataBytes (m : SensorDataMessage) : List ℕ :=
  [m.msg_type % 256, m.client_id % 256] ++ u32le m.timestamp ++
    i16le m.temperature ++ u16le m.humidity ++ u16le m.distance_cm ++
    [m.battery % 256] ++ u16le m.luminosity_lux ++
    [m.reserved % 256, m.checksum % 256]

/-- Packed byte image of a `HeartbeatMessage`. -/
def heartbeatBytes (m : HeartbeatMessage) : List ℕ :=
  [m.msg_type % 256, m.client_id % 256] ++ u32le m.timestamp ++
    [m.status % 256, m.checksum % 256]

/-- Packed byte image of an `AlertMessage`. -/
def alertBytes (m : AlertMessage) : List ℕ :=
  [m.msg_type % 256, m.client_id % 256] ++ u32le m.timestamp ++
    [m.alert_code % 256] ++ i16le m.alert_value ++
    [m.severity % 256, m.reserved % 256, m.checksum % 256]

/-- Size `sizeof(SensorDataMessage)`: the packed struct is the sum of its field
widths 1+1+4+2+2+2+1+2+1+1. -/
def sensorDataMessageSize : ℕ := 1 + 1 + 4 + 2 + 2 + 2 + 1 + 2 + 1 + 1

/-- Size `sizeof(HeartbeatMessage)`: 1+1+4+1+1. -/
def heartbeatMessageSize : ℕ := 1 + 1 + 4 + 1 + 1

/-- Size `sizeof(AlertMessage)`: 1+1+4+1+2+1+1+1. -/
def alertMessageSize : ℕ := 1 + 1 + 4 + 1 + 2 + 1 + 1 + 1

/-! ### Checksum (`gateway/src/utils.cpp`, same functions linked into the
client).

`calculate_checksum` XORs the bytes at indices `0 .. length-2`;
`verify_checksum` compares the result with the byte at `length-1`. -/

/-- Function `calculate_checksum(data, length)`: XOR of `data[i]` for
`0 <= i < length - 1` (direct translation of the indexed loop). -/
def calculate_checksum (data : List ℕ) : ℕ :=
  (List.range (data.length - 1)).foldl (fun acc i => acc ^^^ data.getD i 0) 0

/-- Function `verify_checksum(data, length)`: the computed checksum equals the last
byte `data[length - 1]`. -/
def verify_checksum (data : List ℕ) : Bool :=
  calculate_checksum data == data.getD (data.length - 1) 0

/-- Specification-side formulation: XOR of a whole list (left fold). -/
def xorAll (l : List ℕ) : ℕ := l.foldl (· ^^^ ·) 0

/-! ### Duplicate-packet tracking (`gateway/src/processing.cpp`)

The dedup table is `static LastPacket last_packets[MAX_CLIENTS]`, zero
initialised; `client_id == 0` marks an unused slot.  `MAX_CLIENTS` and
`DUPLICATE_WINDOW_MS` are used by `processing.cpp` but defined nowhere under
the sources, so their values are modelled from the spec; the table-walk
algorithm itself is translated from `is_duplicate`. -/

/-- The `struct LastPacket` of `processing.cpp`. -/
structure LastPacket where
  client_id : ℕ
  timestamp : ℕ
  rx_time : ℕ
  deriving DecidableEq, Repr

/-- Modelled from the spec: `MAX_CLIENTS`, the fixed dedup-table capacity,
is referenced by `processing.cpp` but its `#define` is not in the sources;
the spec says "fixed capacity, e.g. 16-32 nodes". -/
def MAX_CLIENTS : ℕ := 16

/-- Modelled from the spec: `DUPLICATE_WINDOW_MS` is referenced by
`processing.cpp` but its `#define` is not in the sources; the spec says
"e.g. 2x expected transmission interval" and `TX_INTERVAL_MS` is 30000. -/
def DUPLICATE_WINDOW_MS : ℕ := 60000

/-- Unsigned `uint32_t` subtraction `a - b` (mod 2^32), as in
`now - last_packets[i].rx_time`; both arguments are assumed `< 2^32`. -/
def u32sub (a b : ℕ) : ℕ := (a + (4294967296 - b % 4294967296)) % 4294967296

/-- First loop of `is_duplicate`: scan for a slot whose `client_id` matches;
on a match return from inside the loop (`some` result), either flagging the
packet as duplicate (state unchanged) or refreshing the slot's `timestamp`
and `rx_time` (its `client_id` is not rewritten). -/
def dedupMatchScan (window client_id timestamp now : ℕ) :
    List LastPacket → Option (Bool × List LastPacket)
  | [] => none
  | s :: rest =>
    if s.client_id = client_id then
      if s.timestamp = timestamp ∧ u32sub now s.rx_time < window then
        some (true, s :: rest)
      else
        some (false, { s with timestamp := timestamp, rx_time := now } :: rest)
    else
      match dedupMatchScan window client_id timestamp now rest with
      | none => none
      | some (b, rest') => some (b, s :: rest')

/-- Second loop of `is_duplicate`: find the first empty slot
(`client_id == 0`) and claim it for the new client. -/
def dedupEmptyScan (client_id timestamp now : ℕ) :
    List LastPacket → Option (List LastPacket)
  | [] => none
  | s :: rest =>
    if s.client_id = 0 then
      some (⟨client_id, timestamp, now⟩ :: rest)
    else
      (dedupEmptyScan client_id timestamp now rest).map (s :: ·)

/-- Function `is_duplicate(client_id, timestamp)` of `processing.cpp`, with the
`millis()` call (`now`), the window and the table passed explicitly.
Returns the boolean result and the table after the call.  When neither a
matching nor an empty slot exists, the code overwrites `last_packets[0]`. -/
def is_duplicate (window client_id timestamp now : ℕ)
    (table : List LastPacket) : Bool × List LastPacket :=
  match dedupMatchScan window client_id timestamp now table with
  | some r => r
  | none =>
    match dedupEmptyScan client_id timestamp now table with
    | some table' => (false, table')
    | none =>
      match table with
      | [] => (false, [])
      | _ :: rest => (false, ⟨client_id, timestamp, now⟩ :: rest)

/-- The boot-time dedup table: `MAX_CLIENTS` zeroed slots. -/
def initialDedupTable : List LastPacket :=
  List.replicate MAX_CLIENTS ⟨0, 0, 0⟩

/-! ### Gateway receive pipeline (`process_rx_lora_message`)

The stats counters live in `LoRaRadio::Stats` (`gateway/include/lora.h`)
plus the file-static `rx_duplicate_count`; they become one record.  The
outcome of the switch is reified so theorems can talk about which branch
ran. -/

/-- The gateway's receive counters: `LoRaRadio::Stats` fields touched by
`process_rx_lora_message`, plus `rx_duplicate_count`. -/
structure RxStats where
  total_rx_valids : ℕ
  total_rx_invalids : ℕ
  total_checksum_errors : ℕ
  rx_duplicate_count : ℕ
  deriving DecidableEq, Repr

/-- Which branch of `process_rx_lora_message` handled the frame. -/
inductive RxOutcome where
  | validSensor
  | duplicateSensor
  | validHeartbeat
  | validAlert
  | checksumError
  | invalid
  deriving DecidableEq, Repr

/-- Gateway state mutated by `process_rx_lora_message`: the dedup table and
the counters. -/
structure GatewayState where
  table : List LastPacket
  stats : RxStats
  deriving DecidableEq, Repr

/-- Function `process_rx_lora_message(data, length, rssi, snr)`: length/type/checksum
classification followed by dedup for sensor frames.  `now` is the `millis()`
value sampled by `is_duplicate`.  `data[2..5]` little-endian is the
`timestamp` field and `data[1]` the `client_id` field of the packed struct
(`reinterpret_cast` on a little-endian machine). -/
def process_rx_lora_message (data : List ℕ) (now : ℕ) (st : GatewayState) :
    RxOutcome × GatewayState :=
  if data.length < 1 then
    (.invalid, { st with stats := { st.stats with
      total_rx_invalids := st.stats.total_rx_invalids + 1 } })
  else
    let msg_type := data.getD 0 0
    if msg_type = MSG_TYPE_SENSOR_DATA then
      if data.length = sensorDataMessageSize then
        if verify_checksum data then
          let client_id := data.getD 1 0
          let timestamp := data.getD 2 0 + 256 * data.getD 3 0 +
            65536 * data.getD 4 0 + 16777216 * data.getD 5 0
          let (dup, table') :=
            is_duplicate DUPLICATE_WINDOW_MS client_id timestamp now st.table
          if dup then
            (.duplicateSensor, { st with table := table', stats :=
              { st.stats with rx_duplicate_count :=
                  st.stats.rx_duplicate_count + 1 } })
          else
            (.validSensor, { st with table := table', stats :=
              { st.stats with total_rx_valids :=
                  st.stats.total_rx_valids + 1 } })
        else
          (.checksumError, { st with stats := { st.stats with
            total_checksum_errors := st.stats.total_checksum_errors + 1,
            total_rx_invalids := st.stats.total_rx_invalids + 1 } })
      else
        (.invalid, { st with stats := { st.stats with
          total_rx_invalids := st.stats.total_rx_invalids + 1 } })
    else if msg_type = MSG_TYPE_HEARTBEAT then
      if data.length = heartbeatMessageSize ∧ verify_checksum data then
        (.validHeartbeat, { st with stats := { st.stats with
          total_rx_valids := st.stats.total_rx_valids + 1 } })
      else
        (.invalid, { st with stats := { st.stats with
          total_rx_invalids := st.stats.total_rx_invalids + 1 } })
    else if msg_type = MSG_TYPE_ALERT then
      if data.length = alertMessageSize ∧ verify_checksum data then
        (.validAlert, { st with stats := { st.stats with
          total_rx_valids := st.stats.total_rx_valids + 1 } })
      else
        (.invalid, { st with stats := { st.stats with
          total_rx_invalids := st.stats.total_rx_invalids + 1 } })
    else
      (.invalid, { st with stats := { st.stats with
        total_rx_invalids := st.stats.total_rx_invalids + 1 } })

/-! ### IEEE-754 binary32 model

The firmware computes with C `float` (IEEE-754 single precision on the
ESP32-S3 FPU, `FLT_EVAL_METHOD == 0`).  A finite binary32 value is an exact
rational; each arithmetic operation returns the correctly rounded
(round-to-nearest, ties-to-even) representable value of the exact result.
`rnd32 q` is that rounding for the normal range: the grid of representable
values around `q` has spacing `ulp = 2^(e-23)` where `2^e ≤ |q| < 2^(e+1)`;
the magnitudes appearing here (0.01 .. 7*10^6) are far from both the
subnormal range and overflow, so this is the full IEEE semantics of the
operations being modelled. -/

/-- Round a rational to the nearest integer, ties to even. -/
def rne (q : ℚ) : ℤ :=
  if q - ⌊q⌋ < 1/2 then ⌊q⌋
  else if 1/2 < q - ⌊q⌋ then ⌊q⌋ + 1
  else if ⌊q⌋ % 2 = 0 then ⌊q⌋ else ⌊q⌋ + 1

/-- Correctly rounded binary32 value of an exact rational (round to nearest,
ties to even; normal range, 24-bit significand). -/
def rnd32 (q : ℚ) : ℚ :=
  if q = 0 then 0
  else
    let e : ℤ := Int.log 2 |q|
    let v : ℚ := (rne (|q| * 2 ^ (23 - e)) : ℚ) * 2 ^ (e - 23)
    if q < 0 then -v else v

/-! ### Codec numeric encodings (`gateway/src/utils.cpp`; the client links
the same four functions, declared in `client/include/utils.h`).

`encode_temperature` is `static_cast<int16_t>(temp * 100.0f)`: one binary32
multiplication followed by a truncating cast.  `decode_temperature` is
`encoded / 100.0f`: the `int16_t` converts to `float` exactly (|x| < 2^24)
and the division is one correctly rounded binary32 operation.  The humidity
pair is identical with `uint16_t`. -/

/-- Function `encode_temperature(float temp)`. -/
def encode_temperature (temp : ℚ) : ℤ := ratTrunc (rnd32 (temp * 100))

/-- Function `decode_temperature(int16_t encoded)`. -/
def decode_temperature (encoded : ℤ) : ℚ := rnd32 ((encoded : ℚ) / 100)

/-- Function `encode_humidity(float humidity)` (`uint16_t` cast; negative inputs are
UB in C, modelled as clipping at 0 by `Int.toNat`). -/
def encode_humidity (humidity : ℚ) : ℕ := (ratTrunc (rnd32 (humidity * 100))).toNat

/-- Function `decode_humidity(uint16_t encoded)`. -/
def decode_humidity (encoded : ℕ) : ℚ := rnd32 ((encoded : ℚ) / 100)

/-! ### Node transmitter (`client/src/main.cpp`)

State: `g_prev_humidity`/`g_prev_distance`, the tx stats and `g_boot_count`.
Sensor readings are binary32 values, modelled as the exact rationals they
denote. -/

/-- Constant `HUMIDITY_CHANGE_THRESHOLD` (client `constants.h`). -/
def HUMIDITY_CHANGE_THRESHOLD : ℚ := 2
/-- Constant `DISTANCE_CHANGE_THRESHOLD` (client `constants.h`). -/
def DISTANCE_CHANGE_THRESHOLD : ℚ := 10
/-- Constant `NODE_ID` (client `constants.h`). -/
def NODE_ID : ℕ := 23
/-- Constant `BATCH_SIZE` (gateway `constants.h`). -/
def BATCH_SIZE : ℕ := 5

/-- Function `should_transmit(humidity, distance)` of `client/src/main.cpp`; the
globals `g_boot_count`, `g_prev_humidity`, `g_prev_distance` are passed
explicitly.  `fabsf(a - b)` is the exact absolute value of the rounded
binary32 subtraction. -/
def should_transmit (boot_count : ℕ) (prev_humidity prev_distance : ℚ)
    (humidity distance : ℚ) : Bool :=
  if boot_count = 1 then true
  else if boot_count % 10 = 0 then true
  else if HUMIDITY_CHANGE_THRESHOLD < |rnd32 (humidity - prev_humidity)| then true
  else if DISTANCE_CHANGE_THRESHOLD < |rnd32 (distance - prev_distance)| then true
  else false

/-- Node-side mutable state touched by `loop()`. -/
structure NodeState where
  prev_humidity : ℚ
  prev_distance : ℚ
  tx_success : ℕ
  tx_failed : ℕ
  tx_skipped : ℕ
  tx_total : ℕ
  boot_count : ℕ
  deriving DecidableEq, Repr

/-- One iteration of `loop()` in `client/src/main.cpp`, from the decision
block to the stats update.  `adaptive` is the `ADAPTIVE_TX_ENABLED`
compile-time toggle; `tx_ok` is the result of `transmit_sensor_data`
(external radio outcome), consulted only when a transmission is attempted. -/
def loop_body (adaptive : Bool) (st : NodeState) (humidity distance : ℚ)
    (tx_ok : Bool) : NodeState :=
  let should_send :=
    if adaptive then
      should_transmit st.boot_count st.prev_humidity st.prev_distance
        humidity distance
    else true
  let st1 := if should_send then st
    else { st with tx_skipped := st.tx_skipped + 1 }
  let st2 :=
    if should_send then
      if tx_ok then
        { st1 with tx_success := st1.tx_success + 1,
                   prev_humidity := humidity, prev_distance := distance }
      else
        { st1 with tx_failed := st1.tx_failed + 1 }
    else st1
  { st2 with tx_total := st2.tx_total + 1 }

/-- The `SensorDataMessage` built by `transmit_sensor_data(humidity,
distance, temperature, luminosity)` before the retry loop; `now` is the
`millis()` timestamp.  The battery field is the literal `100`
("TODO: implement battery monitoring"). -/
def build_sensor_message (now : ℕ) (humidity distance temperature : ℚ)
    (luminosity : ℕ) : SensorDataMessage :=
  let base : SensorDataMessage := {
    msg_type := MSG_TYPE_SENSOR_DATA,
    client_id := NODE_ID,
    timestamp := now % 4294967296,
    temperature := encode_temperature temperature,
    humidity := encode_humidity humidity,
    distance_cm := (ratTrunc distance).toNat % 65536,
    battery := 100,
    luminosity_lux := luminosity % 65536,
    reserved := 0,
    checksum := 0 }
  { base with checksum := calculate_checksum (sensorDataBytes base) }

/-! ### Batcher (`gateway/src/batch.cpp`)

`batch_buffer`/`batch_count`/`batch_start_time` become a record holding the
`batch_count` live entries; a flush hands the batch to `forward_to_server`,
reified as the `Option (List String)` component of the result. -/

/-- The gateway's open batch: the live prefix of `batch_buffer` plus
`batch_start_time`. -/
structure BatchState where
  buffer : List String
  start_time : ℕ
  deriving DecidableEq, Repr

/-- Function `flush_batch()`: forwards the accumulated messages (in order) and
resets the batch; a no-op on an empty batch. -/
def flush_batch (st : BatchState) : Option (List String) × BatchState :=
  if st.buffer.length = 0 then (none, st)
  else (some st.buffer, ⟨[], 0⟩)

/-- Function `add_to_batch(json)`: stamps `batch_start_time` on the first record,
appends, and flushes when the count reaches `BATCH_SIZE`.  `now` is the
`millis()` value. -/
def add_to_batch (json : String) (now : ℕ) (st : BatchState) :
    Option (List String) × BatchState :=
  let st1 := if st.buffer.length = 0 then { st with start_time := now } else st
  let st2 := { st1 with buffer := st1.buffer ++ [json] }
  if BATCH_SIZE ≤ st2.buffer.length then flush_batch st2
  else (none, st2)

/-- State of the batch after a sequence of timestamped `add_to_batch`
calls, discarding the flushed outputs. -/
def batchAfter (rs : List (String × ℕ)) (st : BatchState) : BatchState :=
  rs.foldl (fun s rt => (add_to_batch rt.1 rt.2 s).2) st

/-- A reachable full dedup table in which slot 0 is the most recently
updated slot (rx_time 1000) and slot 1 the least recently updated
(rx_time 1). -/
def lruFullTable : List LastPacket :=
  [⟨1, 0, 1000⟩, ⟨2, 0, 1⟩, ⟨3, 0, 2⟩, ⟨4, 0, 3⟩, ⟨5, 0, 4⟩, ⟨6, 0, 5⟩,
   ⟨7, 0, 6⟩, ⟨8, 0, 7⟩, ⟨9, 0, 8⟩, ⟨10, 0, 9⟩, ⟨11, 0, 10⟩, ⟨12, 0, 11⟩,
   ⟨13, 0, 12⟩, ⟨14, 0, 13⟩, ⟨15, 0, 14⟩, ⟨16, 0, 15⟩]

/-! ## Theorems -/

/-! ### Wire sizes (claim C1) -/

/-- C1: the claim states a SensorData frame is 16 bytes and an Alert frame
11 bytes; laying the packed structs out field by field gives 17 and 12
bytes (the 16/11 figures omit the 1-byte discriminant), refuting the claim
at any concrete message. -/
theorem c1_counterexample :
    (sensorDataBytes ⟨1, 2, 3, 4, 5, 6, 7, 8, 9, 10⟩).length ≠ 16 ∧
    (alertBytes ⟨3, 1, 2, 4, 5, 6, 7, 8⟩).length ≠ 11 := by
  decide

/-- C1 (amended): every packed SensorData frame is 17 bytes, every
Heartbeat frame 8 bytes and every Alert frame 12 bytes, matching the
field-by-field struct sizes. -/
theorem c1_amended (m : SensorDataMessage) (hb : HeartbeatMessage)
    (al : AlertMessage) :
    (sensorDataBytes m).length = sensorDataMessageSize ∧
    (heartbeatBytes hb).length = heartbeatMessageSize ∧
    (alertBytes al).length = alertMessageSize ∧
    sensorDataMessageSize = 17 ∧ heartbeatMessageSize = 8 ∧
    alertMessageSize = 12 := by
  refine ⟨?_, ?_, ?_, rfl, rfl, rfl⟩ <;>
    simp [sensorDataBytes, heartbeatBytes, alertBytes, u32le, u16le, i16le,
      sensorDataMessageSize, heartbeatMessageSize, alertMessageSize]

/-! ### Checksum validation (claim C2) -/

theorem foldl_range_xor (l : List ℕ) :
    (List.range l.length).foldl (fun acc i => acc ^^^ l.getD i 0) 0 = xorAll l := by
  induction l using List.reverseRecOn with
  | nil => rfl
  | append_singleton l a ih =>
    rw [List.length_append, List.length_singleton, List.range_succ,
      List.foldl_append]
    have h1 : (List.range l.length).foldl
        (fun acc i => acc ^^^ (l ++ [a]).getD i 0) 0
        = (List.range l.length).foldl (fun acc i => acc ^^^ l.getD i 0) 0 := by
      apply List.foldl_ext
      intro acc i hi
      rw [List.mem_range] at hi
      rw [List.getD_append _ _ _ _ hi]
    have h2 : (l ++ [a]).getD l.length 0 = a := by
      rw [List.getD_append_right _ _ _ _ (le_refl l.length), Nat.sub_self]
      rfl
    rw [h1, ih]
    simp [xorAll, h2]

theorem calculate_checksum_eq_xorAll (data : List ℕ) :
    calculate_checksum data = xorAll data.dropLast := by
  unfold calculate_checksum
  rw [show data.length - 1 = data.dropLast.length from
    (List.length_dropLast data).symm]
  rw [← foldl_range_xor data.dropLast]
  apply List.foldl_ext
  intro acc i hi
  rw [List.mem_range] at hi
  congr 1
  rw [List.getD_eq_getElem _ _ hi,
    List.getD_eq_getElem _ _ (lt_of_lt_of_le hi (List.length_dropLast data ▸
      Nat.sub_le data.length 1)),
    List.getElem_dropLast]

/-- C2: for a frame of length `n ≥ 1`, `verify_checksum` holds exactly when
the last byte equals the XOR of all preceding bytes, and the receiver
accepts a frame as a valid message of its discriminant's variant exactly
when the length equals that variant's fixed size and the checksum matches
(for SensorData, acceptance-as-valid means passing validation, i.e. landing
in the fresh or duplicate branch rather than the error branches). -/
theorem c2_valid_iff (data : List ℕ) (now : ℕ) (st : GatewayState)
    (hlen : 1 ≤ data.length) :
    (verify_checksum data = true ↔
      data.getD (data.length - 1) 0 = xorAll data.dropLast) ∧
    (data.getD 0 0 = MSG_TYPE_SENSOR_DATA →
      (((process_rx_lora_message data now st).1 = .validSensor ∨
        (process_rx_lora_message data now st).1 = .duplicateSensor) ↔
        data.length = sensorDataMessageSize ∧ verify_checksum data = true)) ∧
    (data.getD 0 0 = MSG_TYPE_HEARTBEAT →
      ((process_rx_lora_message data now st).1 = .validHeartbeat ↔
        data.length = heartbeatMessageSize ∧ verify_checksum data = true)) ∧
    (data.getD 0 0 = MSG_TYPE_ALERT →
      ((process_rx_lora_message data now st).1 = .validAlert ↔
        data.length = alertMessageSize ∧ verify_checksum data = true)) := by
  have hnum1 : ((2 : ℕ) = 1) = False := by decide
  have hnum2 : ((3 : ℕ) = 1) = False := by decide
  have hnum3 : ((3 : ℕ) = 2) = False := by decide
  refine ⟨?_, ?_, ?_, ?_⟩
  · rw [verify_checksum, calculate_checksum_eq_xorAll, beq_iff_eq, eq_comm]
  · intro h0
    unfold process_rx_lora_message
    rw [if_neg (by omega : ¬ data.length < 1)]
    simp only [h0, MSG_TYPE_SENSOR_DATA, if_pos rfl]
    split_ifs with h1 h2 h3 <;> simp_all
  · intro h0
    unfold process_rx_lora_message
    rw [if_neg (by omega : ¬ data.length < 1)]
    simp only [h0, MSG_TYPE_SENSOR_DATA, MSG_TYPE_HEARTBEAT, hnum1, if_false]
    split_ifs with hc1 hc2 <;> simp_all
  · intro h0
    unfold process_rx_lora_message
    rw [if_neg (by omega : ¬ data.length < 1)]
    simp only [h0, MSG_TYPE_SENSOR_DATA, MSG_TYPE_HEARTBEAT, MSG_TYPE_ALERT,
      hnum2, hnum3, if_false]
    split_ifs with hc1 hc2 <;> simp_all


/-- C2 witness: a concrete 8-byte heartbeat frame with correct trailing
XOR is accepted as a valid heartbeat. -/
theorem c2_valid_iff_witness :
    (process_rx_lora_message [2, 7, 1, 0, 0, 0, 0, 4] 0
      ⟨initialDedupTable, ⟨0, 0, 0, 0⟩⟩).1 = .validHeartbeat :=
  ((c2_valid_iff [2, 7, 1, 0, 0, 0, 0, 4] 0
      ⟨initialDedupTable, ⟨0, 0, 0, 0⟩⟩ (by decide)).2.2.1
    (by decide)).mpr (by decide)

/-! ### Batch capacity (claim C6) -/

/-- C6: starting from an empty batch, five adds (BATCH_SIZE = 5) produce no
flush on the first four and exactly one flush on the fifth, releasing the
five records in arrival order and leaving an empty batch; the next add
starts a fresh batch stamped with its own time. -/
theorem c6_batch_capacity (r1 r2 r3 r4 r5 r6 : String)
    (t1 t2 t3 t4 t5 t6 : ℕ) :
    (add_to_batch r1 t1 ⟨[], 0⟩).1 = none ∧
    (add_to_batch r2 t2 (batchAfter [(r1, t1)] ⟨[], 0⟩)).1 = none ∧
    (add_to_batch r3 t3 (batchAfter [(r1, t1), (r2, t2)] ⟨[], 0⟩)).1 =
      none ∧
    (add_to_batch r4 t4
      (batchAfter [(r1, t1), (r2, t2), (r3, t3)] ⟨[], 0⟩)).1 = none ∧
    (add_to_batch r5 t5
      (batchAfter [(r1, t1), (r2, t2), (r3, t3), (r4, t4)] ⟨[], 0⟩)).1 =
      some [r1, r2, r3, r4, r5] ∧
    batchAfter [(r1, t1), (r2, t2), (r3, t3), (r4, t4), (r5, t5)] ⟨[], 0⟩ =
      ⟨[], 0⟩ ∧
    (add_to_batch r6 t6
      (batchAfter [(r1, t1), (r2, t2), (r3, t3), (r4, t4), (r5, t5)]
        ⟨[], 0⟩)).1 = none ∧
    batchAfter [(r1, t1), (r2, t2), (r3, t3), (r4, t4), (r5, t5), (r6, t6)]
      ⟨[], 0⟩ = ⟨[r6], t6⟩ := by
  simp [batchAfter, add_to_batch, flush_batch, BATCH_SIZE]

/-! ### Deduplication (claims C4, C5) -/

theorem dedupMatchScan_eq_none {window client_id timestamp now : ℕ}
    {table : List LastPacket} (h : ∀ s ∈ table, s.client_id ≠ client_id) :
    dedupMatchScan window client_id timestamp now table = none := by
  induction table with
  | nil => rfl
  | cons s rest ih =>
    rw [dedupMatchScan, if_neg (h s (List.mem_cons_self s rest)),
      ih fun t ht => h t (List.mem_cons_of_mem s ht)]

theorem dedupEmptyScan_eq_none {client_id timestamp now : ℕ}
    {table : List LastPacket} (h : ∀ s ∈ table, s.client_id ≠ 0) :
    dedupEmptyScan client_id timestamp now table = none := by
  induction table with
  | nil => rfl
  | cons s rest ih =>
    rw [dedupEmptyScan, if_neg (h s (List.mem_cons_self s rest)),
      ih fun t ht => h t (List.mem_cons_of_mem s ht)]
    rfl

/-- C4: the claim quantifies over every node id, but node id 0 doubles as
the table's empty-slot sentinel: from the boot state, the very first
presentation of (nodeId = 0, timestamp = 0) at `now = 0` matches the zeroed
slot 0 inside the window and is judged a duplicate, as is the second
presentation — no Fresh admission ever happens, refuting "exactly one
Fresh followed by one Duplicate". -/
theorem c4_counterexample :
    (is_duplicate DUPLICATE_WINDOW_MS 0 0 0 initialDedupTable).1 = true ∧
    (is_duplicate DUPLICATE_WINDOW_MS 0 0 1
      (is_duplicate DUPLICATE_WINDOW_MS 0 0 0 initialDedupTable).2).1 =
      true := by
  decide

/-- C4 (amended): for every node id in the documented range 1..255 and any
timestamp, presenting (nodeId, timestamp) from the boot state yields Fresh;
re-presenting it while the stored entry's age is inside the window yields
Duplicate and leaves the table untouched (so a retransmission burst is
judged against the original admission time); re-presenting it once the age
reaches the window yields Fresh again. -/
theorem c4_amended (window nid ts t1 t2 t3 : ℕ)
    (hnid1 : 1 ≤ nid) (hnid2 : nid ≤ 255)
    (hin : u32sub t2 t1 < window) (hout : ¬ u32sub t3 t1 < window) :
    (is_duplicate window nid ts t1 initialDedupTable).1 = false ∧
    (is_duplicate window nid ts t2
      (is_duplicate window nid ts t1 initialDedupTable).2).1 = true ∧
    (is_duplicate window nid ts t2
      (is_duplicate window nid ts t1 initialDedupTable).2).2 =
      (is_duplicate window nid ts t1 initialDedupTable).2 ∧
    (is_duplicate window nid ts t3
      (is_duplicate window nid ts t2
        (is_duplicate window nid ts t1 initialDedupTable).2).2).1 = false := by
  have hz : ∀ s ∈ initialDedupTable, s.client_id ≠ nid := by
    intro s hs
    rw [List.eq_of_mem_replicate hs]
    simp only
    omega
  have h1 : is_duplicate window nid ts t1 initialDedupTable =
      (false, ⟨nid, ts, t1⟩ :: List.replicate 15 ⟨0, 0, 0⟩) := by
    simp only [is_duplicate, dedupMatchScan_eq_none hz]
    rfl
  have hsc2 : dedupMatchScan window nid ts t2
      (⟨nid, ts, t1⟩ :: List.replicate 15 ⟨0, 0, 0⟩ : List LastPacket) =
      some (true, ⟨nid, ts, t1⟩ :: List.replicate 15 ⟨0, 0, 0⟩) := by
    simp [dedupMatchScan, hin]
  have hsc3 : dedupMatchScan window nid ts t3
      (⟨nid, ts, t1⟩ :: List.replicate 15 ⟨0, 0, 0⟩ : List LastPacket) =
      some (false, ⟨nid, ts, t3⟩ :: List.replicate 15 ⟨0, 0, 0⟩) := by
    simp [dedupMatchScan, hout]
  have h2 : is_duplicate window nid ts t2
      (⟨nid, ts, t1⟩ :: List.replicate 15 ⟨0, 0, 0⟩ : List LastPacket) =
      (true, ⟨nid, ts, t1⟩ :: List.replicate 15 ⟨0, 0, 0⟩) := by
    simp only [is_duplicate, hsc2]
  have h3 : is_duplicate window nid ts t3
      (⟨nid, ts, t1⟩ :: List.replicate 15 ⟨0, 0, 0⟩ : List LastPacket) =
      (false, ⟨nid, ts, t3⟩ :: List.replicate 15 ⟨0, 0, 0⟩) := by
    simp only [is_duplicate, hsc3]
  rw [h1, h2, h3]
  exact ⟨rfl, rfl, rfl, rfl⟩

/-- C4 witness: node 1, timestamp 5, arrivals at 0 ms, 1 ms (inside the
60000 ms window) and 60000 ms (outside it). -/
theorem c4_amended_witness :
    (is_duplicate 60000 1 5 0 initialDedupTable).1 = false ∧
    (is_duplicate 60000 1 5 1
      (is_duplicate 60000 1 5 0 initialDedupTable).2).1 = true ∧
    (is_duplicate 60000 1 5 60000
      (is_duplicate 60000 1 5 1
        (is_duplicate 60000 1 5 0 initialDedupTable).2).2).1 = false := by
  have h := c4_amended 60000 1 5 0 1 60000 (by decide) (by decide)
    (by decide) (by decide)
  exact ⟨h.1, h.2.1, by rw [h.2.2.1]; exact h.2.2.2⟩

/-- C5: the claim says the least-recently-updated slot is evicted; in the
code the fallback overwrites `last_packets[0]` unconditionally.  With a
full table whose slot 0 is the most recently updated (rx_time 1000, all
others at most 15), an unknown node 100 evicts slot 0 while the
least-recently-updated slot ⟨2, 0, 1⟩ survives. -/
theorem c5_counterexample :
    lruFullTable.length = MAX_CLIENTS ∧
    (∀ s ∈ lruFullTable.tail, s.rx_time < 1000) ∧
    lruFullTable.getD 0 ⟨0, 0, 0⟩ = ⟨1, 0, 1000⟩ ∧
    (is_duplicate DUPLICATE_WINDOW_MS 100 7 2000 lruFullTable).1 = false ∧
    (is_duplicate DUPLICATE_WINDOW_MS 100 7 2000 lruFullTable).2 =
      ⟨100, 7, 2000⟩ :: lruFullTable.tail ∧
    ⟨2, 0, 1⟩ ∈ (is_duplicate DUPLICATE_WINDOW_MS 100 7 2000
      lruFullTable).2 := by
  decide

/-- C5 (amended): when a message from a node id not in the table arrives
and no slot is empty, the code always evicts slot 0, regardless of which
slot was least recently updated. -/
theorem c5_amended (window nid ts now : ℕ) (table : List LastPacket)
    (hne : table ≠ [])
    (hmiss : ∀ s ∈ table, s.client_id ≠ nid)
    (hfull : ∀ s ∈ table, s.client_id ≠ 0) :
    is_duplicate window nid ts now table =
      (false, ⟨nid, ts, now⟩ :: table.tail) := by
  simp only [is_duplicate, dedupMatchScan_eq_none hmiss,
    dedupEmptyScan_eq_none hfull]
  cases table with
  | nil => exact absurd rfl hne
  | cons s rest => rfl

/-- C5 witness: a concrete two-slot full table with no empty slot and no
match for node 5. -/
theorem c5_amended_witness :
    is_duplicate 60000 5 9 42 [⟨1, 2, 3⟩, ⟨2, 3, 4⟩] =
      (false, [⟨5, 9, 42⟩, ⟨2, 3, 4⟩]) :=
  c5_amended 60000 5 9 42 [⟨1, 2, 3⟩, ⟨2, 3, 4⟩] (by decide)
    (by decide) (by decide)

/-! ### Receive-error classification counters (claim C8) -/

/-- C8: the claim says a frame failing only the checksum increments the
checksum-error counter and not the generic invalid counter; processing a
17-byte SensorData frame of all `1` bytes (whose trailing byte 1 differs
from the XOR 0 of the first 16) increments BOTH counters, refuting the
claim. -/
theorem c8_counterexample :
    (process_rx_lora_message (List.replicate 17 1) 0
      ⟨initialDedupTable, ⟨0, 0, 0, 0⟩⟩).1 = .checksumError ∧
    (process_rx_lora_message (List.replicate 17 1) 0
      ⟨initialDedupTable, ⟨0, 0, 0, 0⟩⟩).2.stats.total_checksum_errors = 1 ∧
    (process_rx_lora_message (List.replicate 17 1) 0
      ⟨initialDedupTable, ⟨0, 0, 0, 0⟩⟩).2.stats.total_rx_invalids = 1 := by
  decide

/-- C8 (amended): a SensorData frame of the right length whose checksum
fails is classified as a checksum error and increments both the
checksum-error counter and the generic invalid counter; Heartbeat and
Alert frames that fail length or checksum, and frames of unknown type,
only increment the generic invalid counter. -/
theorem c8_amended (data : List ℕ) (now : ℕ) (st : GatewayState) :
    (data.getD 0 0 = MSG_TYPE_SENSOR_DATA →
      data.length = sensorDataMessageSize → verify_checksum data = false →
      process_rx_lora_message data now st =
        (.checksumError, { st with stats := { st.stats with
          total_checksum_errors := st.stats.total_checksum_errors + 1,
          total_rx_invalids := st.stats.total_rx_invalids + 1 } })) ∧
    (data.getD 0 0 = MSG_TYPE_HEARTBEAT →
      ¬ (data.length = heartbeatMessageSize ∧ verify_checksum data = true) →
      process_rx_lora_message data now st =
        (.invalid, { st with stats := { st.stats with
          total_rx_invalids := st.stats.total_rx_invalids + 1 } })) ∧
    (data.getD 0 0 = MSG_TYPE_ALERT →
      ¬ (data.length = alertMessageSize ∧ verify_checksum data = true) →
      process_rx_lora_message data now st =
        (.invalid, { st with stats := { st.stats with
          total_rx_invalids := st.stats.total_rx_invalids + 1 } })) ∧
    (1 ≤ data.length →
      data.getD 0 0 ≠ MSG_TYPE_SENSOR_DATA →
      data.getD 0 0 ≠ MSG_TYPE_HEARTBEAT →
      data.getD 0 0 ≠ MSG_TYPE_ALERT →
      process_rx_lora_message data now st =
        (.invalid, { st with stats := { st.stats with
          total_rx_invalids := st.stats.total_rx_invalids + 1 } })) := by
  refine ⟨?_, ?_, ?_, ?_⟩
  · intro h0 hsz hck
    unfold process_rx_lora_message
    rw [if_neg (by rw [hsz]; decide : ¬ data.length < 1)]
    simp only [h0, MSG_TYPE_SENSOR_DATA, if_pos rfl, hsz, hck]
    rfl
  · intro h0 hfail
    have hl : ¬ data.length < 1 := by
      cases data with
      | nil => exact absurd h0 (by decide)
      | cons a rest => simp
    unfold process_rx_lora_message
    rw [if_neg hl]
    simp only [h0, MSG_TYPE_SENSOR_DATA, MSG_TYPE_HEARTBEAT, MSG_TYPE_ALERT]
    split_ifs <;> simp_all
  · intro h0 hfail
    have hl : ¬ data.length < 1 := by
      cases data with
      | nil => exact absurd h0 (by decide)
      | cons a rest => simp
    unfold process_rx_lora_message
    rw [if_neg hl]
    simp only [h0, MSG_TYPE_SENSOR_DATA, MSG_TYPE_HEARTBEAT, MSG_TYPE_ALERT]
    split_ifs <;> simp_all
  · intro hlen h1 h2 h3
    unfold process_rx_lora_message
    rw [if_neg (by omega : ¬ data.length < 1)]
    simp only [MSG_TYPE_SENSOR_DATA, MSG_TYPE_HEARTBEAT, MSG_TYPE_ALERT]
      at h1 h2 h3 ⊢
    split_ifs <;> simp_all

/-- C8 witness: an 8-byte heartbeat frame with a wrong trailing checksum,
a 2-byte heartbeat frame whose trailing byte matches the XOR but whose
length is wrong, and an unknown-type frame each bump only the invalid
counter, while the all-ones sensor frame bumps both counters, via the
amended theorem. -/
theorem c8_amended_witness :
    process_rx_lora_message [2, 7, 1, 0, 0, 0, 0, 9] 0
      ⟨initialDedupTable, ⟨0, 0, 0, 0⟩⟩ =
      (.invalid, ⟨initialDedupTable, ⟨0, 1, 0, 0⟩⟩) ∧
    process_rx_lora_message [2, 2] 0
      ⟨initialDedupTable, ⟨0, 0, 0, 0⟩⟩ =
      (.invalid, ⟨initialDedupTable, ⟨0, 1, 0, 0⟩⟩) ∧
    process_rx_lora_message [9, 9] 0
      ⟨initialDedupTable, ⟨0, 0, 0, 0⟩⟩ =
      (.invalid, ⟨initialDedupTable, ⟨0, 1, 0, 0⟩⟩) ∧
    process_rx_lora_message (List.replicate 17 1) 0
      ⟨initialDedupTable, ⟨0, 0, 0, 0⟩⟩ =
      (.checksumError, ⟨initialDedupTable, ⟨0, 1, 1, 0⟩⟩) :=
  ⟨(c8_amended [2, 7, 1, 0, 0, 0, 0, 9] 0
      ⟨initialDedupTable, ⟨0, 0, 0, 0⟩⟩).2.1 (by decide) (by decide),
   (c8_amended [2, 2] 0
      ⟨initialDedupTable, ⟨0, 0, 0, 0⟩⟩).2.1 (by decide) (by decide),
   (c8_amended [9, 9] 0
      ⟨initialDedupTable, ⟨0, 0, 0, 0⟩⟩).2.2.2 (by decide) (by decide)
      (by decide) (by decide),
   (c8_amended (List.replicate 17 1) 0
      ⟨initialDedupTable, ⟨0, 0, 0, 0⟩⟩).1 (by decide) (by decide)
      (by decide)⟩

/-! ### Binary32 rounding lemmas (shared by claims C3 and C7) -/

theorem rne_intCast (n : ℤ) : rne (n : ℚ) = n := by
  unfold rne
  rw [Int.floor_intCast, sub_self]
  norm_num

theorem rne_eq_floor (q : ℚ) (n : ℤ) (hfl : ⌊q⌋ = n) (hfr : q - n < 1/2) :
    rne q = n := by
  unfold rne
  rw [hfl, if_pos hfr]

theorem rnd32_zero : rnd32 0 = 0 := by
  unfold rnd32
  rw [if_pos rfl]

theorem Int_log2_eq {q : ℚ} {e : ℤ} (hq : 0 < q)
    (h1 : (2 : ℚ) ^ e ≤ q) (h2 : q < (2 : ℚ) ^ (e + 1)) :
    Int.log 2 q = e := by
  have hcast : ((2 : ℕ) : ℚ) = (2 : ℚ) := by norm_num
  have h1' : ((2 : ℕ) : ℚ) ^ e ≤ q := by rw [hcast]; exact h1
  have h2' : q < ((2 : ℕ) : ℚ) ^ (e + 1) := by rw [hcast]; exact h2
  have ha := (Int.zpow_le_iff_le_log (by norm_num) hq).mp h1'
  have hb := (Int.lt_zpow_iff_log_lt (by norm_num) hq).mp h2'
  omega

theorem rnd32_eval_pos (q : ℚ) (e m : ℤ) (hq : 0 < q)
    (h1 : (2 : ℚ) ^ e ≤ q) (h2 : q < (2 : ℚ) ^ (e + 1))
    (hm : rne (q * 2 ^ (23 - e)) = m) :
    rnd32 q = (m : ℚ) * 2 ^ (e - 23) := by
  unfold rnd32
  simp only [if_neg (ne_of_gt hq), abs_of_pos hq, Int_log2_eq hq h1 h2, hm,
    if_neg (not_lt.mpr (le_of_lt hq))]

/-- A dyadic rational with a significand below 2^24 is exactly
representable in binary32, so `rnd32` fixes it. -/
theorem rnd32_dyadic (n : ℤ) (j : ℕ) (hn : n ≠ 0) (hb : |n| < 2 ^ 24) :
    rnd32 ((n : ℚ) / 2 ^ j) = (n : ℚ) / 2 ^ j := by
  set q : ℚ := (n : ℚ) / 2 ^ j with hqdef
  have h2j : (0 : ℚ) < 2 ^ j := by positivity
  have hq0 : q ≠ 0 :=
    div_ne_zero (Int.cast_ne_zero.mpr hn) (ne_of_gt h2j)
  have habs : |q| = ((|n| : ℤ) : ℚ) / 2 ^ j := by
    rw [hqdef, abs_div, abs_of_pos h2j, Int.cast_abs]
  have hqpos : 0 < |q| := abs_pos.mpr hq0
  have he_up : Int.log 2 |q| ≤ 23 - (j : ℤ) := by
    have h24 : |q| < ((2 : ℕ) : ℚ) ^ ((23 - (j : ℤ)) + 1) := by
      rw [show ((2 : ℕ) : ℚ) = (2 : ℚ) by norm_num]
      rw [habs, div_lt_iff h2j, ← zpow_natCast (2 : ℚ) j,
        ← zpow_add₀ (by norm_num : (2 : ℚ) ≠ 0)]
      have hexp : ((23 - (j : ℤ)) + 1) + j = 24 := by ring
      rw [hexp]
      exact_mod_cast hb
    have := (Int.lt_zpow_iff_log_lt (by norm_num) hqpos).mp h24
    omega
  set e : ℤ := Int.log 2 |q| with hedef
  have hm : |q| * (2 : ℚ) ^ (23 - e) =
      ((|n| * 2 ^ (23 - e - j).toNat : ℤ) : ℚ) := by
    rw [habs]
    push_cast
    rw [← zpow_natCast (2 : ℚ) ((23 - e - (j : ℤ)).toNat),
      Int.toNat_of_nonneg (by omega), ← zpow_natCast (2 : ℚ) j,
      div_mul_eq_mul_div, mul_div_assoc,
      ← zpow_sub₀ (by norm_num : (2 : ℚ) ≠ 0)]
  have hv : ((|n| * 2 ^ (23 - e - (j : ℤ)).toNat : ℤ) : ℚ) * 2 ^ (e - 23) =
      |q| := by
    push_cast
    rw [← zpow_natCast (2 : ℚ) ((23 - e - (j : ℤ)).toNat),
      Int.toNat_of_nonneg (by omega), mul_assoc,
      ← zpow_add₀ (by norm_num : (2 : ℚ) ≠ 0)]
    have : (23 - e - (j : ℤ)) + (e - 23) = -(j : ℤ) := by ring
    rw [this, habs, zpow_neg, zpow_natCast]
    push_cast
    rw [div_eq_mul_inv]
  unfold rnd32
  simp only [if_neg hq0, ← hedef, hm, rne_intCast, hv]
  rcases lt_or_le q 0 with hneg | hpos
  · rw [if_pos hneg, abs_of_neg hneg, neg_neg]
  · rw [if_neg (not_lt.mpr hpos), abs_of_nonneg hpos]

theorem rnd32_intCast (n : ℤ) (hb : |n| < 2 ^ 24) : rnd32 (n : ℚ) = n := by
  rcases eq_or_ne n 0 with rfl | hn
  · rw [Int.cast_zero, rnd32_zero]
  · have := rnd32_dyadic n 0 hn hb
    rw [pow_zero, div_one] at this
    exact this

theorem rnd32_one : rnd32 (1 : ℚ) = 1 := by
  have := rnd32_intCast 1 (by norm_num)
  rw [Int.cast_one] at this
  exact this

theorem rnd32_three : rnd32 (3 : ℚ) = 3 := by
  have h3 := rnd32_intCast 3 (by norm_num)
  norm_num at h3
  exact h3

theorem ratTrunc_intCast (n : ℤ) : ratTrunc (n : ℚ) = n := by
  unfold ratTrunc
  split_ifs with h
  · rw [← Int.cast_neg, Int.floor_intCast, neg_neg]
  · rw [Int.floor_intCast]

/-! ### Numeric encode/decode round-trip (claim C3) -/

/-- C3: the claim says encode is `round(value * 100)` clamped and that
`encode(decode(x)) == x` for every integer-scaled in-range `x`; the code
truncates `temp * 100.0f` toward zero with no rounding or clamping, and at
x = 53 the binary32 computation gives `(53 / 100.0f) * 100.0f` slightly
below 53, so the truncating cast returns 52 and the round-trip fails. -/
theorem c3_counterexample :
    encode_temperature (decode_temperature 53) ≠ 53 := by
  have hdec : decode_temperature 53 = 2222981 / 4194304 := by
    unfold decode_temperature
    rw [show (((53 : ℤ) : ℚ) / 100) = 53 / 100 by norm_num]
    have hm : rne ((53 / 100 : ℚ) * 2 ^ ((23 : ℤ) - (-1))) = 8891924 := by
      rw [show ((23 : ℤ) - (-1)) = 24 by norm_num]
      exact rne_eq_floor _ _ (by norm_num) (by norm_num)
    have h := rnd32_eval_pos (53 / 100) (-1) 8891924 (by norm_num)
      (by norm_num) (by norm_num) hm
    rw [h]
    norm_num
  have henc : encode_temperature (2222981 / 4194304) = 52 := by
    unfold encode_temperature
    rw [show ((2222981 / 4194304 : ℚ) * 100) = 55574525 / 1048576 by norm_num]
    have hm : rne ((55574525 / 1048576 : ℚ) * 2 ^ ((23 : ℤ) - 5)) =
        13893631 := by
      rw [show ((23 : ℤ) - 5) = 18 by norm_num]
      exact rne_eq_floor _ _ (by norm_num) (by norm_num)
    have h := rnd32_eval_pos (55574525 / 1048576) 5 13893631 (by norm_num)
      (by norm_num) (by norm_num) hm
    rw [h]
    rw [show ((((13893631 : ℤ)) : ℚ) * 2 ^ ((5 : ℤ) - 23)) =
      13893631 / 262144 by push_cast; norm_num]
    unfold ratTrunc
    rw [if_neg (by norm_num)]
    norm_num
  rw [hdec, henc]
  decide

/-- C3 (amended): encode multiplies by 100 in binary32 and truncates toward
zero without clamping, decode divides by 100 in binary32; the round-trip
`encode(decode(x)) == x` holds exactly when the decoded quotient is
representable, e.g. for every multiple of 25 in range (temperature as
`int16_t`, humidity as `uint16_t`), but not for all integer-scaled x
(x = 53 returns 52). -/
theorem c3_amended (k : ℤ) (hlo : -1310 ≤ k) (hhi : k ≤ 1310) :
    encode_temperature (decode_temperature (25 * k)) = 25 * k ∧
    (0 ≤ k → encode_humidity (decode_humidity ((25 * k).toNat)) =
      (25 * k).toNat) := by
  rcases eq_or_ne k 0 with rfl | hk
  · constructor
    · unfold decode_temperature encode_temperature
      rw [show (((25 * (0 : ℤ) : ℤ) : ℚ) / 100) = 0 by norm_num, rnd32_zero,
        show ((0 : ℚ) * 100) = 0 by norm_num, rnd32_zero]
      unfold ratTrunc
      norm_num
    · intro ha
      unfold decode_humidity encode_humidity
      rw [show ((((25 * (0 : ℤ)).toNat : ℕ) : ℚ) / 100) = 0 by norm_num,
        rnd32_zero, show ((0 : ℚ) * 100) = 0 by norm_num, rnd32_zero]
      unfold ratTrunc
      norm_num
  · have hkabs : |k| < 2 ^ 24 := by
      rw [abs_lt]
      omega
    have h25abs : |25 * k| < 2 ^ 24 := by
      rw [abs_lt]
      omega
    have hdec : rnd32 (((25 * k : ℤ) : ℚ) / 100) = (k : ℚ) / 2 ^ 2 := by
      rw [show (((25 * k : ℤ) : ℚ) / 100) = (k : ℚ) / 2 ^ 2 by
        push_cast; ring]
      exact rnd32_dyadic k 2 hk hkabs
    have henc : ratTrunc (rnd32 (((k : ℚ) / 2 ^ 2) * 100)) = 25 * k := by
      rw [show (((k : ℚ) / 2 ^ 2) * 100) = ((25 * k : ℤ) : ℚ) by
        push_cast; ring]
      rw [rnd32_intCast (25 * k) h25abs, ratTrunc_intCast]
    constructor
    · unfold decode_temperature encode_temperature
      rw [hdec, henc]
    · intro hknn
      have h0 : (0 : ℤ) ≤ 25 * k := by omega
      have hc : (((25 * k).toNat : ℕ) : ℚ) = ((25 * k : ℤ) : ℚ) := by
        exact_mod_cast Int.toNat_of_nonneg h0
      unfold decode_humidity encode_humidity
      rw [hc, hdec, henc]

/-- C3 witness: x = 2525 = 25 · 101 round-trips exactly. -/
theorem c3_amended_witness :
    encode_temperature (decode_temperature (25 * 101)) = 25 * 101 ∧
    encode_humidity (decode_humidity ((25 * 101 : ℤ).toNat)) =
      (25 * 101 : ℤ).toNat :=
  ⟨(c3_amended 101 (by decide) (by decide)).1,
   (c3_amended 101 (by decide) (by decide)).2 (by decide)⟩

/-! ### Adaptive suppression (claim C7) -/

/-- C7: with adaptive suppression enabled, `should_transmit` fires exactly
on the first boot, every 10th cycle, or a humidity/distance change beyond
its threshold; with previous (50 %, 150 cm) and thresholds 2 %/10 cm, a
(51 %, 150 cm) reading is suppressed on an ordinary cycle, force-sent on
cycle 10, and a (53 %, 150 cm) reading is sent on any cycle. -/
theorem c7_adaptive_suppression :
    (∀ (bc : ℕ) (ph pd h d : ℚ),
      should_transmit bc ph pd h d = true ↔
        (bc = 1 ∨ bc % 10 = 0 ∨
          HUMIDITY_CHANGE_THRESHOLD < |rnd32 (h - ph)| ∨
          DISTANCE_CHANGE_THRESHOLD < |rnd32 (d - pd)|)) ∧
    (∀ bc : ℕ, bc ≠ 1 → bc % 10 ≠ 0 →
      should_transmit bc 50 150 51 150 = false) ∧
    should_transmit 10 50 150 51 150 = true ∧
    (∀ bc : ℕ, should_transmit bc 50 150 53 150 = true) := by
  have hiff : ∀ (bc : ℕ) (ph pd h d : ℚ),
      should_transmit bc ph pd h d = true ↔
        (bc = 1 ∨ bc % 10 = 0 ∨
          HUMIDITY_CHANGE_THRESHOLD < |rnd32 (h - ph)| ∨
          DISTANCE_CHANGE_THRESHOLD < |rnd32 (d - pd)|) := by
    intro bc ph pd h d
    unfold should_transmit
    split_ifs <;> simp_all
  have e51 : rnd32 ((51 : ℚ) - 50) = 1 := by
    rw [show ((51 : ℚ) - 50) = 1 by norm_num, rnd32_one]
  have e53 : rnd32 ((53 : ℚ) - 50) = 3 := by
    rw [show ((53 : ℚ) - 50) = 3 by norm_num, rnd32_three]
  have e150 : rnd32 ((150 : ℚ) - 150) = 0 := by
    rw [show ((150 : ℚ) - 150) = 0 by norm_num, rnd32_zero]
  refine ⟨hiff, ?_, ?_, ?_⟩
  · intro bc hb1 hb10
    rw [← Bool.not_eq_true, hiff]
    rw [e51, e150]
    simp [hb1, hb10, HUMIDITY_CHANGE_THRESHOLD, DISTANCE_CHANGE_THRESHOLD]
  · rw [hiff]
    right; left
    decide
  · intro bc
    rw [hiff, e53]
    right; right; left
    rw [HUMIDITY_CHANGE_THRESHOLD]
    norm_num

/-- C7 witness: ordinary cycle 2 suppresses the (51 %, 150 cm) reading and
cycle 7 still sends the (53 %, 150 cm) reading. -/
theorem c7_adaptive_suppression_witness :
    should_transmit 2 50 150 51 150 = false ∧
    should_transmit 7 50 150 53 150 = true :=
  ⟨c7_adaptive_suppression.2.1 2 (by decide) (by decide),
   c7_adaptive_suppression.2.2.2 7⟩

/-! ### Previous readings updated only on success (claim C9) -/

/-- C9: after one loop iteration the stored previous humidity/distance are
the just-read values when a transmission was attempted and succeeded, and
are unchanged on a transmission failure or a suppressed cycle — so
suppression always compares against the last successfully sent state. -/
theorem c9_prev_follows_success (adaptive : Bool) (st : NodeState)
    (humidity distance : ℚ) (tx_ok : Bool) :
    let sent := if adaptive then
      should_transmit st.boot_count st.prev_humidity st.prev_distance
        humidity distance else true
    let st' := loop_body adaptive st humidity distance tx_ok
    (sent = true → tx_ok = true →
      st'.prev_humidity = humidity ∧ st'.prev_distance = distance) ∧
    (sent = false →
      st'.prev_humidity = st.prev_humidity ∧
      st'.prev_distance = st.prev_distance) ∧
    (tx_ok = false →
      st'.prev_humidity = st.prev_humidity ∧
      st'.prev_distance = st.prev_distance) := by
  unfold loop_body
  cases adaptive <;> cases tx_ok <;>
    simp <;> split_ifs <;> simp_all

/-- C9 witness: with suppression disabled, a successful cycle stores the
just-sent readings and a failed cycle leaves them untouched. -/
theorem c9_prev_follows_success_witness :
    ((loop_body false ⟨1, 2, 0, 0, 0, 0, 5⟩ 60 140 true).prev_humidity = 60 ∧
      (loop_body false ⟨1, 2, 0, 0, 0, 0, 5⟩ 60 140 true).prev_distance =
        140) ∧
    ((loop_body false ⟨1, 2, 0, 0, 0, 0, 5⟩ 60 140 false).prev_humidity =
        1 ∧
      (loop_body false ⟨1, 2, 0, 0, 0, 0, 5⟩ 60 140 false).prev_distance =
        2) :=
  ⟨(c9_prev_follows_success false ⟨1, 2, 0, 0, 0, 0, 5⟩ 60 140 true).1
      rfl rfl,
   (c9_prev_follows_success false ⟨1, 2, 0, 0, 0, 0, 5⟩ 60 140 false).2.2
      rfl⟩

/-! ### Battery constant (claim C10) -/

/-- C10: every SensorData message the node builds carries battery = 100,
independent of the sensor inputs; byte 12 of the packed frame is that
constant. -/
theorem c10_battery_constant (now : ℕ) (humidity distance temperature : ℚ)
    (luminosity : ℕ) :
    (build_sensor_message now humidity distance temperature
      luminosity).battery = 100 ∧
    (sensorDataBytes (build_sensor_message now humidity distance temperature
      luminosity)).getD 12 0 = 100 := by
  constructor
  · rfl
  · simp [build_sensor_message, sensorDataBytes, u32le, u16le, i16le]

end EnvMonitor
